import Mathlib

/-!
Verification development for the safety-and-security gating layer of the
store-chatbot RAG repository.

The Python modules under `backend/document_security`, `backend/safety` and
`backend/api` are shallowly embedded below.  Pure functions become Lean
functions; the stateful `ConfidentialReportingService` becomes explicit
state passing over a `ServiceState` record.  Machine floats that only ever
carry exact decimal literals (confidence scores) are modelled as rationals.
External effects (the Vertex AI call, `uuid`, `datetime`, Fernet
encryption, the salted hash) are modelled as explicit inputs, so that
every definition is executable and every concrete run can be settled by
`decide` / `rfl`.

String handling: Python lowercases with `str.lower`, strips with
`str.strip`, and matches word-boundary regular expressions whose bodies
are finite alternations of literal phrases.  These are embedded over
`List Char` with an explicit word-boundary scanner (`alt_occurs`); the
ASCII word characters `[A-Za-z0-9_]` model `\w`, which is faithful for
all inputs the repository handles.
-/

/-! ## Character and string utilities (models of `str.lower`, `str.strip`,
`in`, and `re.search` on literal-alternation patterns) -/

/-- Model of the regex class `\w` (ASCII): letters, digits, underscore. -/
def isWordChar (c : Char) : Bool :=
  c.isAlphanum || c == '_'

/-- Model of the regex class `\s` and of the characters stripped by
`str.strip`: space, tab, newline, carriage return, form feed, vertical tab. -/
def isPySpace (c : Char) : Bool :=
  c == ' ' || c == '\t' || c == '\n' || c == '\r' || c == '\x0c' || c == '\x0b'

/-- Model of Python `str.lower` (ASCII case folding). -/
def pyLower (s : String) : String :=
  String.mk (s.data.map Char.toLower)

/-- Model of Python `str.strip` (drop leading and trailing whitespace). -/
def pyStrip (s : String) : String :=
  String.mk (((s.data.dropWhile isPySpace).reverse.dropWhile isPySpace).reverse)

/-- If `pat` is a prefix of `s`, return the remaining suffix. -/
def dropIfStartsWith : List Char → List Char → Option (List Char)
  | [], s => some s
  | _ :: _, [] => none
  | p :: ps, c :: cs => if p == c then dropIfStartsWith ps cs else none

/-- Model of Python `pat in s` (plain substring containment). -/
def containsSub (pat : List Char) : List Char → Bool
  | [] => (dropIfStartsWith pat []).isSome
  | c :: cs => (dropIfStartsWith pat (c :: cs)).isSome || containsSub pat cs

/-- Is there a `\b` word boundary between two adjacent positions?  `none`
stands for the start or the end of the string. -/
def boundaryBetween (a b : Option Char) : Bool :=
  (match a with | none => false | some c => isWordChar c)
    != (match b with | none => false | some c => isWordChar c)

/-- Does the literal alternative `alt` match at the start of `s`, given the
character `prev` just before this position?  `trailB` says whether the
pattern ends with `\b` right after the alternative (`trailB = false` models
the pattern shape `\b(...)\w*\b`, whose trailing `\w*\b` is satisfiable
after any match of the alternative). -/
def altMatchAt (alt : List Char) (trailB : Bool) (prev : Option Char)
    (s : List Char) : Bool :=
  match dropIfStartsWith alt s with
  | none => false
  | some rest =>
      boundaryBetween prev alt.head? &&
      (!trailB || boundaryBetween alt.getLast? rest.head?)

/-- Does `alt` match anywhere in the string (scanning every position)?  This
is the model of `re.search` for one literal alternative of a
word-boundary pattern. -/
def altOccurs (alt : List Char) (trailB : Bool) : Option Char → List Char → Bool
  | prev, [] => altMatchAt alt trailB prev []
  | prev, c :: cs => altMatchAt alt trailB prev (c :: cs) || altOccurs alt trailB (some c) cs

/-- A classifier rule: one Python regex of the shape `\b( a | b | ... )\b`
(or `\b(...)\w*\b` when `trailB = false`), expanded into its finite list of
literal alternatives. -/
structure Rule where
  alts : List String
  trailB : Bool
deriving DecidableEq

/-- Model of `re.search(pattern, message)` for one rule. -/
def ruleMatches (r : Rule) (m : String) : Bool :=
  r.alts.any (fun a => altOccurs a.data r.trailB none m.data)

/-- The Python source stores the regex source string of each matched rule in
`patterns_found`; the model records the rule's alternation body (`a|b|...`).
Only emptiness and length of `patterns_found` are ever consumed. -/
def Rule.src (r : Rule) : String :=
  String.intercalate "|" r.alts

/-! ## `backend/document_security/document_verifier.py` -/

/-- `ThreatCategory` enum. -/
inductive ThreatCategory where
  | CLEAN
  | PROMPT_INJECTION
  | SOCIAL_ENGINEERING
  | CYBERSECURITY_THREAT
  | MALWARE_INDICATORS
  | PII_EXPOSURE
  | OFFENSIVE_CONTENT
  | POLICY_VIOLATION
  | SUSPICIOUS_PATTERNS
deriving DecidableEq

/-- `ThreatSeverity` enum. -/
inductive ThreatSeverity where
  | NONE
  | LOW
  | MEDIUM
  | HIGH
  | CRITICAL
deriving DecidableEq

/-- `ThreatDetection` dataclass. -/
structure ThreatDetection where
  category : ThreatCategory
  severity : ThreatSeverity
  pattern : String
  context : String
  confidence : ℚ
  recommendation : String
deriving DecidableEq

/-- The `severity_scores` dict of `_calculate_overall_severity`, in insertion
order. -/
def severityScores : List (ThreatSeverity × ℕ) :=
  [(ThreatSeverity.NONE, 0), (ThreatSeverity.LOW, 1), (ThreatSeverity.MEDIUM, 2),
   (ThreatSeverity.HIGH, 3), (ThreatSeverity.CRITICAL, 4)]

/-- Numeric score of a severity (the value `severity_scores[t.severity]`). -/
def severityScore : ThreatSeverity → ℕ
  | ThreatSeverity.NONE => 0
  | ThreatSeverity.LOW => 1
  | ThreatSeverity.MEDIUM => 2
  | ThreatSeverity.HIGH => 3
  | ThreatSeverity.CRITICAL => 4

/-- The final loop of `_calculate_overall_severity`: first severity in
insertion order whose score equals the given value. -/
def severityOfScore (n : ℕ) : ThreatSeverity :=
  match severityScores.find? (fun p => p.2 == n) with
  | some p => p.1
  | none => ThreatSeverity.NONE

/-- `max(severity_scores[t.severity] for t in threats)`; Python's `max` over
a non-empty list of the scores (all scores are ≥ 0, so folding from 0 is
the same value). -/
def maxThreatScore (threats : List ThreatDetection) : ℕ :=
  (threats.map (fun t => severityScore t.severity)).foldl Nat.max 0

/-- `DocumentVerifier._calculate_overall_severity`. -/
def calculate_overall_severity (threats : List ThreatDetection) : ThreatSeverity :=
  if threats.isEmpty then ThreatSeverity.NONE
  else severityOfScore (maxThreatScore threats)

/-- The verdict fields of `VerificationResult` that are computed from the
collected detection list in `DocumentVerifier.verify_document` (lines
324–337).  `document_hash`, `verified_at` and `summary` are audit metadata
computed from the same inputs and are not modelled. -/
structure VerificationOutcome where
  is_safe : Bool
  overall_severity : ThreatSeverity
  allow_ingestion : Bool
deriving DecidableEq

/-- The local `is_safe` of `verify_document`:
`len(threats) == 0 or all(t.severity in [NONE, LOW] for t in threats)`. -/
def isSafeB (threats : List ThreatDetection) : Bool :=
  threats.isEmpty ||
    threats.all (fun t =>
      t.severity == ThreatSeverity.NONE || t.severity == ThreatSeverity.LOW)

/-- The local `allow_ingestion` of `verify_document`:
`is_safe and overall_severity not in [HIGH, CRITICAL]`. -/
def allowIngestionB (threats : List ThreatDetection) : Bool :=
  isSafeB threats &&
    !(calculate_overall_severity threats == ThreatSeverity.HIGH ||
      calculate_overall_severity threats == ThreatSeverity.CRITICAL)

/-- The decision logic of `DocumentVerifier.verify_document` applied to the
list of detections collected by the seven scans (lines 324–337). -/
def verification_outcome (threats : List ThreatDetection) : VerificationOutcome :=
  ⟨isSafeB threats, calculate_overall_severity threats, allowIngestionB threats⟩

/-! ### Severity-aggregation lemmas -/

theorem severityScore_le_four (s : ThreatSeverity) : severityScore s ≤ 4 := by
  cases s <;> simp [severityScore]

theorem severityOfScore_score (n : ℕ) (h : n ≤ 4) :
    severityScore (severityOfScore n) = n := by
  interval_cases n <;> rfl

theorem severityScore_inj {s t : ThreatSeverity}
    (h : severityScore s = severityScore t) : s = t := by
  cases s <;> cases t <;> simp_all [severityScore]

theorem foldl_max_init (l : List ℕ) (i : ℕ) :
    l.foldl Nat.max i = Nat.max i (l.foldl Nat.max 0) := by
  induction l generalizing i with
  | nil => simp
  | cons a l ih =>
      simp only [List.foldl_cons]
      rw [ih (Nat.max i a), ih (Nat.max 0 a)]
      simp [Nat.zero_max, Nat.max_assoc]

theorem maxThreatScore_nil : maxThreatScore [] = 0 := rfl

theorem maxThreatScore_cons (t : ThreatDetection) (l : List ThreatDetection) :
    maxThreatScore (t :: l) =
      max (severityScore t.severity) (maxThreatScore l) := by
  simp only [maxThreatScore, List.map_cons, List.foldl_cons]
  rw [foldl_max_init]
  simp only [Nat.zero_max]

theorem maxThreatScore_le_four (l : List ThreatDetection) :
    maxThreatScore l ≤ 4 := by
  induction l with
  | nil => simp [maxThreatScore_nil]
  | cons t l ih =>
      rw [maxThreatScore_cons]
      exact max_le (severityScore_le_four t.severity) ih

theorem maxThreatScore_le_iff (l : List ThreatDetection) (k : ℕ) :
    maxThreatScore l ≤ k ↔ ∀ t ∈ l, severityScore t.severity ≤ k := by
  induction l with
  | nil => simp [maxThreatScore_nil]
  | cons t l ih =>
      rw [maxThreatScore_cons, max_le_iff]
      simp only [List.mem_cons, ih]
      constructor
      · rintro ⟨h1, h2⟩ x hx
        rcases hx with rfl | hx
        · exact h1
        · exact h2 x hx
      · intro h
        exact ⟨h t (Or.inl rfl), fun x hx => h x (Or.inr hx)⟩

theorem maxThreatScore_mem (l : List ThreatDetection) (h : l ≠ []) :
    ∃ t ∈ l, severityScore t.severity = maxThreatScore l := by
  induction l with
  | nil => exact absurd rfl h
  | cons t l ih =>
      rw [maxThreatScore_cons]
      rcases eq_or_ne l [] with rfl | hl
      · refine ⟨t, List.mem_cons_self t [], ?_⟩
        simp [maxThreatScore_nil]
      · rcases ih hl with ⟨u, hu, hscore⟩
        rcases Nat.le_total (severityScore t.severity) (maxThreatScore l) with hle | hle
        · refine ⟨u, List.mem_cons_of_mem t hu, ?_⟩
          rw [max_eq_right hle]
          exact hscore
        · refine ⟨t, List.mem_cons_self t l, ?_⟩
          exact (max_eq_left hle).symm

theorem score_calculate_overall (l : List ThreatDetection) :
    severityScore (calculate_overall_severity l) = maxThreatScore l := by
  cases l with
  | nil => rfl
  | cons t l =>
      simp only [calculate_overall_severity, List.isEmpty_cons, Bool.false_eq_true,
        if_false]
      exact severityOfScore_score _ (maxThreatScore_le_four (t :: l))

theorem maxThreatScore_sublist {l₁ l₂ : List ThreatDetection}
    (h : l₁.Sublist l₂) : maxThreatScore l₁ ≤ maxThreatScore l₂ := by
  induction h with
  | slnil => simp
  | cons t _ ih =>
      rw [maxThreatScore_cons]
      exact le_trans ih (le_max_right _ _)
  | cons₂ t _ ih =>
      rw [maxThreatScore_cons, maxThreatScore_cons]
      exact max_le_max le_rfl ih

theorem sev_le_one_iff (s : ThreatSeverity) :
    ((s == ThreatSeverity.NONE) = true ∨ (s == ThreatSeverity.LOW) = true) ↔
      severityScore s ≤ 1 := by
  cases s <;> simp [severityScore]

theorem not_high_critical_of_le_one {s : ThreatSeverity}
    (h : severityScore s ≤ 1) :
    (s == ThreatSeverity.HIGH || s == ThreatSeverity.CRITICAL) = false := by
  cases s <;> simp_all [severityScore]

theorem isSafeB_iff (l : List ThreatDetection) :
    isSafeB l = true ↔ ∀ t ∈ l, severityScore t.severity ≤ 1 := by
  simp only [isSafeB, Bool.or_eq_true, List.isEmpty_iff, List.all_eq_true]
  constructor
  · rintro (rfl | h)
    · simp
    · intro t ht
      exact (sev_le_one_iff t.severity).mp (h t ht)
  · intro h
    exact Or.inr (fun t ht => (sev_le_one_iff t.severity).mpr (h t ht))

/-- C9 — Implicit: for every `VerificationResult` produced by
`DocumentVerifier.verify_document`, `allow_ingestion` equals `is_safe` (the
two fields never differ), and any MEDIUM-severity detection makes both
false. -/
theorem c9_allow_ingestion_eq_is_safe (l : List ThreatDetection) :
    (verification_outcome l).allow_ingestion = (verification_outcome l).is_safe ∧
    (∀ t ∈ l, t.severity = ThreatSeverity.MEDIUM →
      (verification_outcome l).is_safe = false ∧
      (verification_outcome l).allow_ingestion = false) := by
  have hmain :
      (verification_outcome l).allow_ingestion = (verification_outcome l).is_safe := by
    show allowIngestionB l = isSafeB l
    cases hS : isSafeB l with
    | false => simp [allowIngestionB, hS]
    | true =>
        have h1 : ∀ t ∈ l, severityScore t.severity ≤ 1 := (isSafeB_iff l).mp hS
        have h2 : maxThreatScore l ≤ 1 := (maxThreatScore_le_iff l 1).mpr h1
        have h3 : severityScore (calculate_overall_severity l) ≤ 1 := by
          rw [score_calculate_overall]
          exact h2
        simp [allowIngestionB, hS, not_high_critical_of_le_one h3]
  refine ⟨hmain, ?_⟩
  intro t ht hmed
  have hS : isSafeB l = false := by
    cases hS : isSafeB l with
    | false => rfl
    | true =>
        have := (isSafeB_iff l).mp hS t ht
        rw [hmed] at this
        simp [severityScore] at this
  refine ⟨hS, ?_⟩
  have := hmain
  show allowIngestionB l = false
  simp [allowIngestionB, hS]

/-- The MEDIUM-severity policy-violation detection produced for the word
"confidential" (the repo's own test content). -/
def mediumPolicyDetection : ThreatDetection :=
  ⟨ThreatCategory.POLICY_VIOLATION, ThreatSeverity.MEDIUM,
   "confidential|proprietary|trade secret|internal only",
   "This document contains confidential information", 65/100,
   "Review document for policy compliance."⟩

theorem c9_allow_ingestion_eq_is_safe_witness :
    (verification_outcome [mediumPolicyDetection]).is_safe = false ∧
    (verification_outcome [mediumPolicyDetection]).allow_ingestion = false :=
  (c9_allow_ingestion_eq_is_safe [mediumPolicyDetection]).2
    mediumPolicyDetection (List.mem_cons_self _ _) rfl

/-- C1 — the code evaluated at the failing input: a document whose only
detection is the MEDIUM-severity policy-violation match (e.g. the repo's
own test content "This document contains confidential information…", which
matches only the pattern `confidential|proprietary|trade secret|internal
only`).  The overall severity is MEDIUM, yet `is_safe` and
`allow_ingestion` are both false, contradicting the claim (and the repo's
test `test_medium_severity_allowed_with_warning`) that MEDIUM documents
remain ingestible. -/
theorem c1_medium_detection_blocks_ingestion :
    (verification_outcome [mediumPolicyDetection]).overall_severity =
      ThreatSeverity.MEDIUM ∧
    (verification_outcome [mediumPolicyDetection]).is_safe = false ∧
    (verification_outcome [mediumPolicyDetection]).allow_ingestion = false :=
  ⟨rfl, rfl, rfl⟩

/-- A detection carrying severity NONE. -/
def noneSeverityDetection : ThreatDetection :=
  ⟨ThreatCategory.CLEAN, ThreatSeverity.NONE, "", "", 0, ""⟩

/-- C8 — counterexample: a non-empty detection list whose overall severity
is NONE (one detection with severity NONE) refutes "overallSeverity ==
NONE exactly when the list is empty" as universally stated over detection
lists. -/
theorem c8_none_counterexample :
    calculate_overall_severity [noneSeverityDetection] = ThreatSeverity.NONE ∧
    ([noneSeverityDetection] : List ThreatDetection) ≠ [] :=
  ⟨rfl, by simp⟩

/-- C8 (amended) — `_calculate_overall_severity` returns an upper bound of
the detections' severities that is attained by some detection whenever the
list is non-empty (i.e. it is their maximum), returns NONE for the empty
list, returns NONE exactly when every detection has severity NONE, and is
monotone under removing a detection. -/
theorem c8_overall_severity_spec (l : List ThreatDetection) :
    (∀ t ∈ l, severityScore t.severity ≤
        severityScore (calculate_overall_severity l)) ∧
    (l ≠ [] → ∃ t ∈ l, t.severity = calculate_overall_severity l) ∧
    (l = [] → calculate_overall_severity l = ThreatSeverity.NONE) ∧
    (calculate_overall_severity l = ThreatSeverity.NONE ↔
      ∀ t ∈ l, t.severity = ThreatSeverity.NONE) ∧
    (∀ i, severityScore (calculate_overall_severity (l.eraseIdx i)) ≤
        severityScore (calculate_overall_severity l)) := by
  refine ⟨?_, ?_, ?_, ?_, ?_⟩
  · rw [score_calculate_overall]
    exact (maxThreatScore_le_iff l _).mp le_rfl
  · intro hl
    rcases maxThreatScore_mem l hl with ⟨t, ht, hs⟩
    refine ⟨t, ht, severityScore_inj ?_⟩
    rw [hs, score_calculate_overall]
  · rintro rfl
    rfl
  · constructor
    · intro h t ht
      have h0 : severityScore (calculate_overall_severity l) = 0 := by
        rw [h]
        rfl
      rw [score_calculate_overall] at h0
      have hle := (maxThreatScore_le_iff l 0).mp (le_of_eq h0) t ht
      refine severityScore_inj ?_
      have h1 : severityScore t.severity = 0 := Nat.le_zero.mp hle
      rw [h1]
      rfl
    · intro h
      have h0 : maxThreatScore l ≤ 0 :=
        (maxThreatScore_le_iff l 0).mpr
          (fun t ht => by rw [h t ht]; exact Nat.le_of_eq rfl)
      apply severityScore_inj
      rw [score_calculate_overall, Nat.le_zero.mp h0]
      rfl
  · intro i
    rw [score_calculate_overall, score_calculate_overall]
    exact maxThreatScore_sublist (List.eraseIdx_sublist l i)

/-- Concrete instantiation of `c8_overall_severity_spec`: the maximum is
attained on a two-detection list, and the empty list maps to NONE. -/
def twoThreats : List ThreatDetection :=
  [⟨ThreatCategory.PROMPT_INJECTION, ThreatSeverity.CRITICAL, "p", "c", 95/100, "r"⟩,
   mediumPolicyDetection]

theorem c8_overall_severity_spec_witness :
    (∃ t ∈ twoThreats, t.severity = calculate_overall_severity twoThreats) ∧
    calculate_overall_severity ([] : List ThreatDetection) = ThreatSeverity.NONE :=
  ⟨(c8_overall_severity_spec twoThreats).2.1 (by simp [twoThreats]),
   (c8_overall_severity_spec []).2.2.1 rfl⟩

/-! ## `backend/safety/classifier.py` -/

/-- `SafetyCategory` enum. -/
inductive SafetyCategory where
  | SAFE_OPERATIONAL
  | PROFANITY_ONLY
  | EMOTIONAL_DISTRESS
  | SELF_HARM_RISK
  | HARM_TO_OTHERS_RISK
  | IMMINENT_DANGER
deriving DecidableEq

/-- `SeverityLevel` enum. -/
inductive SeverityLevel where
  | LOW
  | MEDIUM
  | HIGH
  | CRITICAL
deriving DecidableEq

/-- The `.value` of a `SeverityLevel` member (the lowercase string the
Python enum carries, which is what `classification.severity.value`
produces at the API layer). -/
def severityValue : SeverityLevel → String
  | SeverityLevel.LOW => "low"
  | SeverityLevel.MEDIUM => "medium"
  | SeverityLevel.HIGH => "high"
  | SeverityLevel.CRITICAL => "critical"

/-- `SafetyClassification` dataclass. -/
structure SafetyClassification where
  category : SafetyCategory
  severity : SeverityLevel
  confidence : ℚ
  detected_patterns : List String
  requires_escalation : Bool
  reasoning : String
deriving DecidableEq

/-- The apostrophe character, used by several rule literals. -/
def aposC : Char := Char.ofNat 39

/-- The apostrophe as a one-character string. -/
def aposS : String := String.singleton aposC

/-- `_self_harm_patterns`: four regexes, each a `\b(...)\b` alternation of
literal phrases (`\'?` expanded into both spellings). -/
def selfHarmRules : List Rule :=
  [⟨["kill myself", "end my life", "want to die", "suicide", "hurt myself"], true⟩,
   ⟨["cut myself", "overdose", "jump off", "hang myself"], true⟩,
   ⟨["don" ++ aposS ++ "t want to live", "dont want to live",
     "life isn" ++ aposS ++ "t worth", "life isnt worth", "no reason to live"], true⟩,
   ⟨["better off dead", "can" ++ aposS ++ "t go on", "cant go on",
     "goodbye world"], true⟩]

/-- `_harm_others_patterns` (the nested group `kill (him|her|...)` expanded). -/
def harmOthersRules : List Rule :=
  [⟨["kill him", "kill her", "kill them", "kill you", "kill everyone"], true⟩,
   ⟨["going to hurt", "shoot", "stab", "attack"], true⟩,
   ⟨["bring a gun", "bring a weapon", "bring a knife"], true⟩,
   ⟨["make them pay", "get revenge", "teach them a lesson"], true⟩]

/-- `_distress_patterns`. -/
def distressRules : List Rule :=
  [⟨["can" ++ aposS ++ "t take it anymore", "cant take it anymore",
     "falling apart", "breaking down"], true⟩,
   ⟨["feel hopeless", "feeling worthless", "hate myself"], true⟩,
   ⟨["overwhelming", "drowning", "suffocating"], true⟩,
   ⟨["panic attack", "anxiety attack", "mental breakdown"], true⟩,
   ⟨["need help", "desperate", "at my limit"], true⟩]

/-- `_profanity_patterns`: the first regex is `\b(...)\w*\b` (character
classes such as `f[u\*]ck` expanded into both spellings; the trailing
`\w*\b` is always satisfiable, hence `trailB = false`), the second a plain
`\b(...)\b` alternation. -/
def profanityRules : List Rule :=
  [⟨["fuck", "f*ck", "shit", "sh*t", "damn", "d*mn", "hell", "h*ll",
     "bitch", "b*tch", "ass", "*ss"], false⟩,
   ⟨["bastard", "piss", "crap"], true⟩]

/-- `_workplace_violence_patterns`. -/
def workplaceViolenceRules : List Rule :=
  [⟨["active shooter", "workplace violence", "threatening"], true⟩,
   ⟨["unsafe work environment", "being harassed", "sexual harassment"], true⟩]

/-- `immediate_words` of `_check_imminent_danger` (plain substring tests). -/
def immediateWords : List String :=
  ["right now", "today", "tonight", "going to", "about to"]

/-- `ambiguous_phrases` of `_needs_semantic_analysis` (plain substring
tests). -/
def ambiguousPhrases : List String :=
  ["can" ++ aposS ++ "t take", "had enough", "done with this",
   "over it", "breaking point", "last straw"]

/-- The local `critical_patterns` of `_check_imminent_danger`:
`self._self_harm_patterns[-2:] + self._harm_others_patterns[:2]`. -/
def criticalRules : List Rule :=
  selfHarmRules.drop (selfHarmRules.length - 2) ++ harmOthersRules.take 2

/-- `SafetyClassifier._check_imminent_danger`. -/
def check_imminent_danger (m : String) : Option SafetyClassification :=
  if !(criticalRules.filter (fun r => ruleMatches r m)).isEmpty &&
      immediateWords.any (fun w => containsSub w.data m.data) then
    some ⟨SafetyCategory.IMMINENT_DANGER, SeverityLevel.CRITICAL, 9/10,
      (criticalRules.filter (fun r => ruleMatches r m)).map Rule.src, true,
      "Detected immediate threat with temporal indicators"⟩
  else none

/-- `SafetyClassifier._check_harm_to_others` (harm-to-others rules, then
workplace-violence rules). -/
def check_harm_to_others (m : String) : Option SafetyClassification :=
  let found := harmOthersRules.filter (fun r => ruleMatches r m) ++
    workplaceViolenceRules.filter (fun r => ruleMatches r m)
  if !found.isEmpty then
    some ⟨SafetyCategory.HARM_TO_OTHERS_RISK, SeverityLevel.CRITICAL, 85/100,
      found.map Rule.src, true, "Detected potential threat to others"⟩
  else none

/-- `SafetyClassifier._check_self_harm` (severity CRITICAL when more than
one distinct rule matched, else HIGH). -/
def check_self_harm (m : String) : Option SafetyClassification :=
  let found := selfHarmRules.filter (fun r => ruleMatches r m)
  if !found.isEmpty then
    some ⟨SafetyCategory.SELF_HARM_RISK,
      if found.length > 1 then SeverityLevel.CRITICAL else SeverityLevel.HIGH,
      85/100, found.map Rule.src, true, "Detected self-harm ideation"⟩
  else none

/-- `SafetyClassifier._check_emotional_distress`. -/
def check_emotional_distress (m : String) : Option SafetyClassification :=
  let found := distressRules.filter (fun r => ruleMatches r m)
  if !found.isEmpty then
    some ⟨SafetyCategory.EMOTIONAL_DISTRESS, SeverityLevel.MEDIUM, 75/100,
      found.map Rule.src, true, "Detected emotional distress signals"⟩
  else none

/-- `SafetyClassifier._check_profanity` (Python collects the `findall`
matches; the model records the matching rules — only non-emptiness is
consumed downstream). -/
def check_profanity (m : String) : Option SafetyClassification :=
  let found := profanityRules.filter (fun r => ruleMatches r m)
  if !found.isEmpty then
    some ⟨SafetyCategory.PROFANITY_ONLY, SeverityLevel.LOW, 95/100,
      found.map Rule.src, false, "Detected inappropriate language"⟩
  else none

/-- `SafetyClassifier._needs_semantic_analysis`. -/
def needs_semantic_analysis (m : String) : Bool :=
  ambiguousPhrases.any (fun p => containsSub p.data m.data)

/-- Outcome of the external Vertex AI call made by `_llm_classify`: the call
either raises (transport error or timeout — both surface as an exception
caught by the `except` handler) or returns response text. -/
inductive LLMOutcome where
  | raised
  | returned (text : String)
deriving DecidableEq

/-- `re.search(r'CATEGORY:\s*(\w+)', text)` — scan for the literal
`CATEGORY:` followed by optional whitespace and at least one word
character; return the captured word run of the first position where the
whole pattern matches. -/
def findCategoryFrom : List Char → Option (List Char)
  | [] => none
  | c :: cs =>
      match dropIfStartsWith ("CATEGORY:".data) (c :: cs) with
      | some rest =>
          let word := (rest.dropWhile isPySpace).takeWhile isWordChar
          if word.isEmpty then findCategoryFrom cs else some word
      | none => findCategoryFrom cs

def find_category (text : String) : Option String :=
  (findCategoryFrom text.data).map String.mk

/-- Characters of the regex class `[\d.]`. -/
def isDigitOrDot (c : Char) : Bool :=
  c.isDigit || c == '.'

/-- `re.search(r'CONFIDENCE:\s*([\d.]+)', text)`, returning the captured
digits-and-dots run. -/
def findConfidenceFrom : List Char → Option (List Char)
  | [] => none
  | c :: cs =>
      match dropIfStartsWith ("CONFIDENCE:".data) (c :: cs) with
      | some rest =>
          let run := (rest.dropWhile isPySpace).takeWhile isDigitOrDot
          if run.isEmpty then findConfidenceFrom cs else some run
      | none => findConfidenceFrom cs

def find_confidence (text : String) : Option String :=
  (findConfidenceFrom text.data).map String.mk

def digitsToNat (ds : List Char) : ℕ :=
  ds.foldl (fun n c => 10 * n + (c.toNat - 48)) 0

/-- Python `float(run)` for a run drawn from `[\d.]+`: accepted forms are
`digits`, `digits.`, `.digits` and `digits.digits`; a lone dot or more
than one dot raises `ValueError`. -/
def pyFloatOfRun (run : List Char) : Option ℚ :=
  let intPart := run.takeWhile Char.isDigit
  match run.dropWhile Char.isDigit with
  | [] => if intPart.isEmpty then none else some (digitsToNat intPart)
  | c :: frac =>
      if c == '.' && frac.all Char.isDigit && !(intPart.isEmpty && frac.isEmpty) then
        some ((digitsToNat intPart : ℚ) + (digitsToNat frac : ℚ) / (10 : ℚ) ^ frac.length)
      else none

/-- The characters of `str.strip` applied to a char list. -/
def stripChars (cs : List Char) : List Char :=
  ((cs.dropWhile isPySpace).reverse.dropWhile isPySpace).reverse

/-- `re.search(r'REASONING:\s*(.+)', text, re.DOTALL)` followed by the
caller's `.strip()`: the group is the rest of the text after `REASONING:`
minus its maximal whitespace prefix (greedy `.+` runs to the end under
DOTALL; when only whitespace follows, backtracking leaves a single
whitespace character, which strips to the empty string — the model returns
the post-strip value directly). -/
def findReasoningFrom : List Char → Option (List Char)
  | [] => none
  | c :: cs =>
      match dropIfStartsWith ("REASONING:".data) (c :: cs) with
      | some rest =>
          if rest.isEmpty then findReasoningFrom cs
          else some (stripChars rest)
      | none => findReasoningFrom cs

def find_reasoning (text : String) : Option String :=
  (findReasoningFrom text.data).map String.mk

/-- `category_map.get(category_str, SafetyCategory.SAFE_OPERATIONAL)`. -/
def categoryFromStr (s : String) : SafetyCategory :=
  if s == "safe_operational" then SafetyCategory.SAFE_OPERATIONAL
  else if s == "profanity_only" then SafetyCategory.PROFANITY_ONLY
  else if s == "emotional_distress" then SafetyCategory.EMOTIONAL_DISTRESS
  else if s == "self_harm_risk" then SafetyCategory.SELF_HARM_RISK
  else if s == "harm_to_others_risk" then SafetyCategory.HARM_TO_OTHERS_RISK
  else if s == "imminent_danger" then SafetyCategory.IMMINENT_DANGER
  else SafetyCategory.SAFE_OPERATIONAL

/-- The `severity_map` of `_llm_classify`. -/
def severityForCategory : SafetyCategory → SeverityLevel
  | SafetyCategory.SAFE_OPERATIONAL => SeverityLevel.LOW
  | SafetyCategory.PROFANITY_ONLY => SeverityLevel.LOW
  | SafetyCategory.EMOTIONAL_DISTRESS => SeverityLevel.MEDIUM
  | SafetyCategory.SELF_HARM_RISK => SeverityLevel.HIGH
  | SafetyCategory.HARM_TO_OTHERS_RISK => SeverityLevel.CRITICAL
  | SafetyCategory.IMMINENT_DANGER => SeverityLevel.CRITICAL

/-- `requires_escalation = category not in [SAFE_OPERATIONAL, PROFANITY_ONLY]`. -/
def requiresEscalationFor (c : SafetyCategory) : Bool :=
  !(c == SafetyCategory.SAFE_OPERATIONAL || c == SafetyCategory.PROFANITY_ONLY)

/-- The classification built by the `except` handler of `_llm_classify`
("err on side of caution"). -/
def conservativeFallback : SafetyClassification :=
  ⟨SafetyCategory.EMOTIONAL_DISTRESS, SeverityLevel.MEDIUM, 1/2,
   ["llm_error_conservative"], true,
   "LLM classification failed; conservative classification applied"⟩

/-- The final fallback of `_llm_classify`, reached when the response text
carries no parsable `CATEGORY:` field. -/
def inconclusiveFallback : SafetyClassification :=
  ⟨SafetyCategory.SAFE_OPERATIONAL, SeverityLevel.LOW, 6/10, [], false,
   "LLM classification inconclusive"⟩

/-- `SafetyClassifier._llm_classify` as a function of the call outcome.
A raised exception (error or timeout) lands in the `except` handler; a
response whose `CONFIDENCE:` capture cannot be converted by `float` raises
`ValueError` inside the `try` and lands in the same handler. -/
def llm_classify (o : LLMOutcome) : SafetyClassification :=
  match o with
  | LLMOutcome.raised => conservativeFallback
  | LLMOutcome.returned text =>
      match find_category text with
      | some w =>
          let category_str := pyLower w
          let conf? : Option ℚ :=
            match find_confidence text with
            | none => some (7/10)
            | some run => pyFloatOfRun run.data
          match conf? with
          | none => conservativeFallback
          | some confidence =>
              let reasoning := (find_reasoning text).getD "LLM classification"
              let category := categoryFromStr category_str
              ⟨category, severityForCategory category, confidence,
               ["llm_semantic_analysis"], requiresEscalationFor category,
               "LLM Analysis: " ++ reasoning⟩
      | none => inconclusiveFallback

/-- The default classification of `classify` ("No safety concerns
detected"). -/
def safeOperationalDefault : SafetyClassification :=
  ⟨SafetyCategory.SAFE_OPERATIONAL, SeverityLevel.LOW, 95/100, [], false,
   "No safety concerns detected"⟩

/-- `SafetyClassifier.classify`: lowercase and strip the message, then run
the pattern checks in precedence order; if none is decisive and the
message carries an ambiguity marker, consult the semantic capability
(whose outcome is the explicit `llm` input) and keep its result unless it
is SAFE_OPERATIONAL. -/
def classify (use_llm : Bool) (message : String) (llm : LLMOutcome) :
    SafetyClassification :=
  let ml := pyStrip (pyLower message)
  match check_imminent_danger ml with
  | some r => r
  | none =>
  match check_harm_to_others ml with
  | some r => r
  | none =>
  match check_self_harm ml with
  | some r => r
  | none =>
  match check_emotional_distress ml with
  | some r => r
  | none =>
  match check_profanity ml with
  | some r => r
  | none =>
    if use_llm && needs_semantic_analysis ml then
      let llm_check := llm_classify llm
      if llm_check.category != SafetyCategory.SAFE_OPERATIONAL then llm_check
      else safeOperationalDefault
    else safeOperationalDefault

/-- C7 — For every message that matches one of the classifier's most-severe
harm-to-others rules (`_harm_others_patterns[:2]`) and contains a
temporal-immediacy marker, `classify` returns IMMINENT_DANGER with
severity CRITICAL and confidence 0.90 (escalating), not
HARM_TO_OTHERS_RISK: the imminent-danger check runs first and wins. -/
theorem c7_imminent_danger_precedence (use_llm : Bool) (message : String)
    (llm : LLMOutcome)
    (hmatch : (harmOthersRules.take 2).any
      (fun r => ruleMatches r (pyStrip (pyLower message))) = true)
    (himm : immediateWords.any
      (fun w => containsSub w.data (pyStrip (pyLower message)).data) = true) :
    (classify use_llm message llm).category = SafetyCategory.IMMINENT_DANGER ∧
    (classify use_llm message llm).severity = SeverityLevel.CRITICAL ∧
    (classify use_llm message llm).confidence = 9/10 ∧
    (classify use_llm message llm).requires_escalation = true := by
  have hne : ((criticalRules.filter
      (fun r => ruleMatches r (pyStrip (pyLower message)))).isEmpty) = false := by
    rcases List.any_eq_true.mp hmatch with ⟨r, hr, hpred⟩
    have hrmem : r ∈ criticalRules := List.mem_append_right _ hr
    have hmem : r ∈ criticalRules.filter
        (fun r => ruleMatches r (pyStrip (pyLower message))) :=
      List.mem_filter.mpr ⟨hrmem, hpred⟩
    have hnenil : criticalRules.filter
        (fun r => ruleMatches r (pyStrip (pyLower message))) ≠ [] :=
      List.ne_nil_of_mem hmem
    cases hfe : (criticalRules.filter
        (fun r => ruleMatches r (pyStrip (pyLower message)))).isEmpty
    · rfl
    · exact absurd (List.isEmpty_iff.mp hfe) hnenil
  have hcheck : check_imminent_danger (pyStrip (pyLower message)) =
      some ⟨SafetyCategory.IMMINENT_DANGER, SeverityLevel.CRITICAL, 9/10,
        (criticalRules.filter
          (fun r => ruleMatches r (pyStrip (pyLower message)))).map Rule.src,
        true, "Detected immediate threat with temporal indicators"⟩ := by
    simp [check_imminent_danger, hne, himm]
  simp [classify, hcheck]

/-- Instantiation of `c7_imminent_danger_precedence` at the spec's example
"going to hurt someone right now", discharging both hypotheses. -/
theorem c7_imminent_danger_precedence_witness :
    ((harmOthersRules.take 2).any (fun r =>
      ruleMatches r (pyStrip (pyLower "I am going to hurt someone right now")))) = true ∧
    (classify true "I am going to hurt someone right now" LLMOutcome.raised).category =
      SafetyCategory.IMMINENT_DANGER ∧
    (classify true "I am going to hurt someone right now" LLMOutcome.raised).severity =
      SeverityLevel.CRITICAL := by
  refine ⟨by decide, ?_, ?_⟩
  · exact (c7_imminent_danger_precedence true "I am going to hurt someone right now"
      LLMOutcome.raised (by decide) (by decide)).1
  · exact (c7_imminent_danger_precedence true "I am going to hurt someone right now"
      LLMOutcome.raised (by decide) (by decide)).2.1

/-- C3 — counterexample: the message "I have had enough" reaches the
semantic fallback (no pattern check is decisive and it carries the
ambiguity marker "had enough"); the capability returns text with no
parsable `CATEGORY:` field — an unusable classification — and `classify`
resolves to the SAFE_OPERATIONAL default (confidence 0.95, no
escalation), not to the claimed EMOTIONAL_DISTRESS fail-closed result. -/
theorem c3_unusable_llm_reply_counterexample :
    needs_semantic_analysis (pyStrip (pyLower "I have had enough")) = true ∧
    check_imminent_danger (pyStrip (pyLower "I have had enough")) = none ∧
    check_harm_to_others (pyStrip (pyLower "I have had enough")) = none ∧
    check_self_harm (pyStrip (pyLower "I have had enough")) = none ∧
    check_emotional_distress (pyStrip (pyLower "I have had enough")) = none ∧
    check_profanity (pyStrip (pyLower "I have had enough")) = none ∧
    find_category "I am unable to comply with this request" = none ∧
    classify true "I have had enough"
      (LLMOutcome.returned "I am unable to comply with this request") =
      safeOperationalDefault ∧
    safeOperationalDefault.category ≠ SafetyCategory.EMOTIONAL_DISTRESS :=
  ⟨rfl, rfl, rfl, rfl, rfl, rfl, rfl, rfl, by decide⟩

/-- C3 (amended) — when `classify` reaches the semantic fallback and the
capability raises (transport error or timeout), the result is the
fail-closed EMOTIONAL_DISTRESS / MEDIUM / confidence 0.5 /
requires_escalation classification with the conservative reasoning; but
when the capability returns text with no parsable category, `_llm_classify`
falls through to a SAFE_OPERATIONAL result and `classify` returns the
SAFE_OPERATIONAL default — the fail-closed rule covers only raised
errors, not unusable replies. -/
theorem c3_fail_closed_on_raise (message : String)
    (h1 : check_imminent_danger (pyStrip (pyLower message)) = none)
    (h2 : check_harm_to_others (pyStrip (pyLower message)) = none)
    (h3 : check_self_harm (pyStrip (pyLower message)) = none)
    (h4 : check_emotional_distress (pyStrip (pyLower message)) = none)
    (h5 : check_profanity (pyStrip (pyLower message)) = none)
    (h6 : needs_semantic_analysis (pyStrip (pyLower message)) = true) :
    classify true message LLMOutcome.raised = conservativeFallback ∧
    conservativeFallback =
      ⟨SafetyCategory.EMOTIONAL_DISTRESS, SeverityLevel.MEDIUM, 1/2,
       ["llm_error_conservative"], true,
       "LLM classification failed; conservative classification applied"⟩ ∧
    (∀ t : String, find_category t = none →
      classify true message (LLMOutcome.returned t) = safeOperationalDefault) := by
  refine ⟨?_, rfl, ?_⟩
  · simp [classify, h1, h2, h3, h4, h5, h6, llm_classify, conservativeFallback]
  · intro t ht
    simp [classify, h1, h2, h3, h4, h5, h6, llm_classify, ht,
      inconclusiveFallback]

/-- Instantiation of `c3_fail_closed_on_raise` at "I have had enough",
discharging every hypothesis. -/
theorem c3_fail_closed_on_raise_witness :
    classify true "I have had enough" LLMOutcome.raised = conservativeFallback ∧
    classify true "I have had enough"
      (LLMOutcome.returned "no parsable fields in this reply") =
      safeOperationalDefault := by
  have h := c3_fail_closed_on_raise "I have had enough" rfl rfl rfl rfl rfl rfl
  exact ⟨h.1, h.2.2 "no parsable fields in this reply" rfl⟩

/-! ## `backend/safety/policy_engine.py` -/

/-- The decision fields of `SafetyResponse`.  The user-facing `message`
templates, the `resources` entries and the `metadata` dicts are fixed
per-branch payloads not consumed by any claim (and the profanity branch
picks its message with `random.choice`); they are not modelled. -/
structure SafetyResponse where
  allow_continuation : Bool
  requires_escalation : Bool
  escalation_priority : Option String
deriving DecidableEq

/-- `SafetyPolicyEngine.generate_response`: dispatch on the classification
category.  Each branch returns fixed decision fields; the severity of the
classification is never consulted. -/
def generate_response (classification : SafetyClassification) : SafetyResponse :=
  match classification.category with
  | SafetyCategory.SAFE_OPERATIONAL => ⟨true, false, none⟩
  | SafetyCategory.PROFANITY_ONLY => ⟨true, false, none⟩
  | SafetyCategory.EMOTIONAL_DISTRESS => ⟨false, true, some "MEDIUM"⟩
  | SafetyCategory.SELF_HARM_RISK => ⟨false, true, some "HIGH"⟩
  | SafetyCategory.HARM_TO_OTHERS_RISK => ⟨false, true, some "CRITICAL"⟩
  | SafetyCategory.IMMINENT_DANGER => ⟨false, true, some "CRITICAL_IMMEDIATE"⟩

/-- A CRITICAL-severity SELF_HARM_RISK classification. -/
def selfHarmCriticalClassification : SafetyClassification :=
  ⟨SafetyCategory.SELF_HARM_RISK, SeverityLevel.CRITICAL, 95/100,
   ["kill myself"], true, "Explicit self-harm ideation"⟩

/-- A CRITICAL-severity HARM_TO_OTHERS_RISK classification. -/
def harmOthersCriticalClassification : SafetyClassification :=
  ⟨SafetyCategory.HARM_TO_OTHERS_RISK, SeverityLevel.CRITICAL, 9/10,
   ["kill him"], true, "Threat to others"⟩

/-- C2 — the code evaluated at the failing inputs: a CRITICAL-severity
SELF_HARM_RISK classification yields escalation priority "HIGH" and a
CRITICAL-severity HARM_TO_OTHERS_RISK classification yields "CRITICAL",
never the "CRITICAL_IMMEDIATE" required by the spec's table and by the
repo's own test `test_escalation_priority_levels`:
`generate_response` never reads the classification's severity. -/
theorem c2_priority_ignores_severity :
    (generate_response selfHarmCriticalClassification).escalation_priority =
      some "HIGH" ∧
    (generate_response harmOthersCriticalClassification).escalation_priority =
      some "CRITICAL" ∧
    (some "HIGH" : Option String) ≠ some "CRITICAL_IMMEDIATE" ∧
    (some "CRITICAL" : Option String) ≠ some "CRITICAL_IMMEDIATE" :=
  ⟨rfl, rfl, by decide, by decide⟩

/-! ## `backend/safety/reporting_service.py` -/

/-- One entry of a report's `access_log` (`timestamp` not modelled). -/
structure AccessEntry where
  accessor_id : String
  purpose : String
deriving DecidableEq

/-- One entry of the `safety_audit_log` collection written by `_audit_log`
(`timestamp` and the constant `service` field not modelled). -/
structure AuditEntry where
  action : String
  report_id : String
  user_id : String
deriving DecidableEq

/-- The `ConfidentialReport` dataclass as persisted.  `timestamp` carries
the explicit `now` input; `encrypted_message` carries the output of the
explicit `encrypt` input (Fernet behind Secret Manager). -/
structure StoredReport where
  report_id : String
  timestamp : String
  classification_category : String
  severity_level : String
  escalation_priority : String
  anonymized_user_id : String
  device_id : Option String
  store_id : String
  session_id : String
  encrypted_message : String
  encryption_key_version : String
  detected_patterns : List String
  confidence_score : ℚ
  classification_reasoning : String
  recipients : List String
  requires_followup : Bool
  retention_days : ℕ
  access_log : List AccessEntry
deriving DecidableEq

/-- The routing message published by `_route_to_recipients`, together with
the topic it is published to. -/
structure RoutedMessage where
  topic : String
  report_id : String
  timestamp : String
  severity : String
  priority : String
  store_id : String
  recipients : List String
  requires_immediate_action : Bool
deriving DecidableEq

/-- The service's durable state: the Firestore reports collection (keyed by
report id), the audit-log collection, and the sequence of Pub/Sub
publishes. -/
structure ServiceState where
  reports : List (String × StoredReport)
  audit_log : List AuditEntry
  published : List RoutedMessage
deriving DecidableEq

/-- `_audit_log`: append one entry to the audit collection. -/
def audit_log_append (s : ServiceState) (action report_id user_id : String) :
    ServiceState :=
  { s with audit_log := s.audit_log ++ [⟨action, report_id, user_id⟩] }

/-- Firestore document fetch by id. -/
def lookupReport (rs : List (String × StoredReport)) (rid : String) :
    Option StoredReport :=
  (rs.find? (fun p => p.1 == rid)).map (fun p => p.2)

/-- Firestore `doc_ref.update` of one report. -/
def updateReport (rs : List (String × StoredReport)) (rid : String)
    (r : StoredReport) : List (String × StoredReport) :=
  rs.map (fun p => if p.1 == rid then (p.1, r) else p)

/-- The `retention_map` of `_get_retention_period` (note the uppercase
keys). -/
def retention_map : List (String × ℕ) :=
  [("LOW", 30), ("MEDIUM", 90), ("HIGH", 180), ("CRITICAL", 365)]

/-- `ConfidentialReportingService._get_retention_period`:
`retention_map.get(severity, 90)`. -/
def get_retention_period (severity : String) : ℕ :=
  match retention_map.find? (fun p => p.1 == severity) with
  | some p => p.2
  | none => 90

/-- The `self.topics` dict (Pub/Sub topic per escalation priority). -/
def pubsubTopics (project_id : String) : List (String × String) :=
  [("MEDIUM", "projects/" ++ project_id ++ "/topics/safety-medium"),
   ("HIGH", "projects/" ++ project_id ++ "/topics/safety-high"),
   ("CRITICAL", "projects/" ++ project_id ++ "/topics/safety-critical"),
   ("CRITICAL_IMMEDIATE", "projects/" ++ project_id ++ "/topics/safety-emergency")]

/-- `ConfidentialReportingService._route_to_recipients`: fall back to the
MEDIUM channel when the report's priority is not a known topic key, then
publish the routing message.  A publish failure is caught and logged in
the source; the model records the attempted publish. -/
def route_to_recipients (project_id : String) (s : ServiceState)
    (report : StoredReport) : ServiceState :=
  let priority :=
    if (pubsubTopics project_id).any (fun p => p.1 == report.escalation_priority)
    then report.escalation_priority else "MEDIUM"
  let topic_path :=
    match (pubsubTopics project_id).find? (fun p => p.1 == priority) with
    | some p => p.2
    | none => ""
  { s with published := s.published ++
      [⟨topic_path, report.report_id, report.timestamp, report.severity_level,
        priority, report.store_id, report.recipients,
        priority == "CRITICAL_IMMEDIATE"⟩] }

/-- The `classification` dict passed to `submit_report` (every key the
source reads is a field; the source's `.get` defaults never fire for the
API layer's payload). -/
structure ClassificationDict where
  category : String
  severity : String
  confidence : ℚ
  detected_patterns : List String
  reasoning : String
deriving DecidableEq

/-- The `policy_response` dict passed to `submit_report`. -/
structure PolicyDict where
  requires_escalation : Bool
  escalation_priority : Option String
  recipients : List String
deriving DecidableEq

/-- The optional `context` dict of `submit_report`. -/
structure RequestContext where
  store_id : Option String
  device_id : Option String
  session_id : Option String
deriving DecidableEq

/-- Python `policy_response['escalation_priority'] or 'NONE'`: `None` and
the empty string are both falsy and become `"NONE"`. -/
def priorityOrNone (p : Option String) : String :=
  match p with
  | none => "NONE"
  | some s => if s == "" then "NONE" else s

/-- `ConfidentialReportingService.submit_report`.  The generated
`uuid.uuid4().hex[:12].upper()` suffix, `datetime.utcnow()`, the Fernet
`encrypt` and the salted `anonymize` hash are explicit inputs. -/
def submit_report (project_id : String) (encrypt anonymize : String → String)
    (fresh_suffix now : String) (s : ServiceState)
    (user_id message : String) (classification : ClassificationDict)
    (policy_response : PolicyDict) (context : Option RequestContext) :
    String × ServiceState :=
  let report_id := "SAFE-" ++ fresh_suffix
  let anonymized_user_id := anonymize user_id
  let encrypted_message := encrypt message
  let store_id := match context with
    | some c => c.store_id.getD "UNKNOWN"
    | none => "UNKNOWN"
  let device_id := match context with
    | some c => c.device_id
    | none => none
  let session_id := match context with
    | some c => c.session_id.getD "UNKNOWN"
    | none => "UNKNOWN"
  let retention_days := get_retention_period classification.severity
  let report : StoredReport :=
    ⟨report_id, now, classification.category, classification.severity,
     priorityOrNone policy_response.escalation_priority,
     anonymized_user_id, device_id, store_id, session_id,
     encrypted_message, "v1",
     classification.detected_patterns, classification.confidence,
     classification.reasoning, policy_response.recipients,
     classification.severity == "HIGH" || classification.severity == "CRITICAL",
     retention_days, []⟩
  let s1 : ServiceState := { s with reports := s.reports ++ [(report_id, report)] }
  let s2 := if policy_response.requires_escalation
    then route_to_recipients project_id s1 report else s1
  let s3 := audit_log_append s2 "REPORT_CREATED" report_id anonymized_user_id
  (report_id, s3)

/-- `ConfidentialReportingService.get_report`: audit the attempt, fetch the
document, return `None` when absent; otherwise append one `access_log`
entry, persist it, audit the grant, and return the report (whose decrypted
message is the inverse of the explicit `encrypt` input and is not
modelled). -/
def get_report (s : ServiceState) (report_id accessor_id purpose : String) :
    Option StoredReport × ServiceState :=
  let s1 := audit_log_append s ("ACCESS_ATTEMPT: " ++ purpose) report_id accessor_id
  match lookupReport s1.reports report_id with
  | none => (none, s1)
  | some r =>
      let r2 : StoredReport :=
        { r with access_log := r.access_log ++ [⟨accessor_id, purpose⟩] }
      let s2 : ServiceState :=
        { s1 with reports := updateReport s1.reports report_id r2 }
      let s3 := audit_log_append s2 ("ACCESS_GRANTED: " ++ purpose) report_id accessor_id
      (some r2, s3)

/-- C4 — the code evaluated at the failing inputs: the `retention_map` keys
are uppercase while the API layer passes `classification.severity.value`
(the enum's lowercase string), so every severity the classifier produces
falls through to the default of 90 days — LOW is retained 90 days instead
of 30, HIGH 90 instead of 180, CRITICAL 90 instead of 365.  The table only
applies to uppercase inputs, which no caller supplies. -/
theorem c4_retention_lowercase_defaults_to_90 :
    get_retention_period "low" = 90 ∧
    get_retention_period "medium" = 90 ∧
    get_retention_period "high" = 90 ∧
    get_retention_period "critical" = 90 ∧
    (∀ sv : SeverityLevel, get_retention_period (severityValue sv) = 90) ∧
    get_retention_period "LOW" = 30 ∧
    get_retention_period "HIGH" = 180 ∧
    get_retention_period "CRITICAL" = 365 ∧
    (90 : ℕ) ≠ 30 := by
  refine ⟨rfl, rfl, rfl, rfl, ?_, rfl, rfl, rfl, by decide⟩
  intro sv
  cases sv <;> rfl

/-- C5 — counterexample: calling `get_report` on an id that is not stored
appends exactly one audit entry (the access attempt) and returns `None`;
the grant entry is never written, so "two audit-log entries per call,
regardless of outcome" fails on the not-found outcome. -/
theorem c5_not_found_single_audit_counterexample :
    (get_report ⟨[], [], []⟩ "SAFE-000000000000" "hr_reviewer"
      "case review").2.audit_log.length = 1 ∧
    (1 : ℕ) ≠ 2 ∧
    (get_report ⟨[], [], []⟩ "SAFE-000000000000" "hr_reviewer"
      "case review").1 = none :=
  ⟨rfl, by decide, rfl⟩

/-- C5 (amended) — every `get_report` call appends the access-attempt audit
entry; a successful retrieval appends, in order, the attempt and the grant
entries (two in total) and exactly one entry to the report's `access_log`;
a not-found call appends only the attempt entry and returns `None`. -/
theorem c5_get_report_logging (s : ServiceState) (rid aid purpose : String) :
    ((lookupReport s.reports rid = none) →
      (get_report s rid aid purpose).2.audit_log =
        s.audit_log ++ [⟨"ACCESS_ATTEMPT: " ++ purpose, rid, aid⟩] ∧
      (get_report s rid aid purpose).1 = none) ∧
    (∀ r, lookupReport s.reports rid = some r →
      (get_report s rid aid purpose).2.audit_log =
        s.audit_log ++ [⟨"ACCESS_ATTEMPT: " ++ purpose, rid, aid⟩,
                        ⟨"ACCESS_GRANTED: " ++ purpose, rid, aid⟩] ∧
      (get_report s rid aid purpose).1 =
        some { r with access_log := r.access_log ++ [⟨aid, purpose⟩] } ∧
      ((get_report s rid aid purpose).1.map (fun rep => rep.access_log.length)) =
        some (r.access_log.length + 1)) := by
  constructor
  · intro h
    constructor <;>
      simp [get_report, audit_log_append, h]
  · intro r h
    refine ⟨?_, ?_, ?_⟩ <;>
      simp [get_report, audit_log_append, h]

/-- A stored report and a state holding it, for instantiating the
`get_report` bookkeeping facts. -/
def sampleStoredReport : StoredReport :=
  ⟨"SAFE-AAAABBBBCCCC", "2026-01-01T00:00:00", "self_harm_risk", "critical",
   "HIGH", "anon16", none, "STORE1", "sess1", "ciphertext", "v1",
   ["kill myself"], 85/100, "Detected self-harm ideation", ["eap_urgent"],
   false, 90, []⟩

def sampleServiceState : ServiceState :=
  ⟨[("SAFE-AAAABBBBCCCC", sampleStoredReport)], [], []⟩

theorem c5_get_report_logging_witness :
    (get_report sampleServiceState "SAFE-AAAABBBBCCCC" "hr_reviewer"
      "case review").2.audit_log.length = 2 ∧
    ((get_report sampleServiceState "SAFE-AAAABBBBCCCC" "hr_reviewer"
      "case review").1.map (fun rep => rep.access_log.length)) = some 1 ∧
    (get_report sampleServiceState "SAFE-DDDDEEEEFFFF" "hr_reviewer"
      "case review").2.audit_log.length = 1 := by
  have hfound := (c5_get_report_logging sampleServiceState "SAFE-AAAABBBBCCCC"
    "hr_reviewer" "case review").2 sampleStoredReport rfl
  have hmissing := (c5_get_report_logging sampleServiceState "SAFE-DDDDEEEEFFFF"
    "hr_reviewer" "case review").1 rfl
  refine ⟨?_, ?_, ?_⟩
  · rw [hfound.1]
    rfl
  · rw [hfound.2.2]
    rfl
  · rw [hmissing.1]
    rfl

/-- C10 — when an escalated report's priority is not one of the four topic
keys — in particular the "NONE" value substituted by
`policy_response['escalation_priority'] or 'NONE'` when the policy
response carried a null priority — `submit_report` still publishes the
routing message, to the MEDIUM-priority topic, with priority "MEDIUM" and
no immediate-action flag: the report is routed, not dropped. -/
theorem c10_unknown_priority_routes_medium (project_id : String)
    (encrypt anonymize : String → String) (fresh_suffix now : String)
    (s : ServiceState) (user_id message : String)
    (classification : ClassificationDict) (policy_response : PolicyDict)
    (context : Option RequestContext)
    (hesc : policy_response.requires_escalation = true)
    (hpri : policy_response.escalation_priority = none) :
    ∃ m : RoutedMessage,
      (submit_report project_id encrypt anonymize fresh_suffix now s user_id
        message classification policy_response context).2.published =
        s.published ++ [m] ∧
      m.topic = "projects/" ++ project_id ++ "/topics/safety-medium" ∧
      m.priority = "MEDIUM" ∧
      m.requires_immediate_action = false := by
  refine ⟨⟨"projects/" ++ project_id ++ "/topics/safety-medium",
    "SAFE-" ++ fresh_suffix, now, classification.severity, "MEDIUM",
    (match context with
      | some c => c.store_id.getD "UNKNOWN"
      | none => "UNKNOWN"),
    policy_response.recipients, false⟩, ?_, rfl, rfl, rfl⟩
  simp [submit_report, hesc, hpri, route_to_recipients, priorityOrNone,
    pubsubTopics, audit_log_append]

theorem c10_unknown_priority_routes_medium_witness :
    ∃ m : RoutedMessage,
      (submit_report "proj" (fun x => x) (fun x => x) "AAAABBBBCCCC" "t1"
        ⟨[], [], []⟩ "user1" "help me"
        ⟨"emotional_distress", "medium", 3/4, [], "r"⟩
        ⟨true, none, ["eap_team"]⟩ none).2.published =
        (⟨[], [], []⟩ : ServiceState).published ++ [m] ∧
      m.topic = "projects/" ++ "proj" ++ "/topics/safety-medium" ∧
      m.priority = "MEDIUM" ∧
      m.requires_immediate_action = false :=
  c10_unknown_priority_routes_medium "proj" (fun x => x) (fun x => x)
    "AAAABBBBCCCC" "t1" ⟨[], [], []⟩ "user1" "help me"
    ⟨"emotional_distress", "medium", 3/4, [], "r"⟩
    ⟨true, none, ["eap_team"]⟩ none rfl rfl

/-! ## `backend/safety/response_filter.py`

The six category scans run Python's `re` engine over the compiled pattern
lists below.  The engine is passed as an explicit input
`reSearch : String → String → Bool` (pattern source, text ↦ does
`pattern.search(text)` hit); the grounding check, which drives every claim
about this module, is embedded concretely. -/

/-- `SafetyViolation` enum. -/
inductive SafetyViolation where
  | HALLUCINATION
  | MALICIOUS_INTENT
  | PROFANITY
  | VIOLENCE
  | SELF_HARM
  | HATE_SPEECH
  | POLITICAL_UNSAFE
  | NONE
deriving DecidableEq

/-- `SafetyAction` enum. -/
inductive SafetyAction where
  | PASS
  | MODIFY
  | BLOCK
deriving DecidableEq

/-- The decision fields of `SafetyCheckResult`; `safe_response` and
`reason` are fixed per-branch message payloads (the MODIFY branch's
cleaned text is produced by regex substitution inside the engine) and are
not consumed by any claim. -/
structure SafetyCheckResult where
  action : SafetyAction
  violations : List SafetyViolation
  confidence : ℚ
deriving DecidableEq

/-- `self.profanity_patterns` (source strings). -/
def rfProfanityPatterns : List String :=
  ["\\b(f[u\\*]ck|sh[i\\*]t|d[a\\*]mn|b[i\\*]tch|a[s\\*]s|cr[a\\*]p)\\w*\\b",
   "\\b(bastard|jackass|moron|idiot|stupid)\\b"]

/-- `self.violence_patterns`. -/
def rfViolencePatterns : List String :=
  ["\\b(kill|murder|shoot|stab|attack|assault|beat)\\s+(you|them|someone|people)\\b",
   "\\b(weapon|gun|knife|bomb|explosive)\\s+to\\s+(hurt|harm|kill)\\b",
   "\\b(threaten|violence|violent|harm)\\b.*\\b(customer|employee|person)\\b"]

/-- `self.self_harm_patterns`. -/
def rfSelfHarmPatterns : List String :=
  ["\\b(suicide|kill yourself|end your life|self[- ]harm)\\b",
   "\\b(cut|hurt|injure)\\s+(yourself|myself)\\b",
   "\\b(want to die|wish I was dead)\\b"]

/-- `self.hate_patterns`. -/
def rfHatePatterns : List String :=
  ["\\b(hate|despise|discriminate)\\s+.\x7b0,30\x7d(race|religion|gender|orientation|disability)\\b",
   "\\b(racist|sexist|homophobic|transphobic|bigot)\\b",
   "\\b(all|every)\\s+(women|men|blacks|whites|jews|muslims|christians)\\s+are\\b"]

/-- `self.political_patterns`. -/
def rfPoliticalPatterns : List String :=
  ["\\b(democrat|republican|liberal|conservative)\\s+(are|is)\\s+(bad|evil|stupid|wrong)\\b",
   "\\b(vote|support|elect)\\s+for\\s+[A-Z][a-z]+\\b",
   "\\b(political|politics)\\s+.\x7b0,20\x7d(should|must|need to)\\b"]

/-- `self.malicious_patterns`. -/
def rfMaliciousPatterns : List String :=
  ["\\b(hack|exploit|bypass|circumvent)\\s+(system|security|policy|rules)\\b",
   "\\b(steal|fraud|scam|cheat)\\b",
   "\\b(credential|password|access)\\s+to\\s+(obtain|steal|get)\\b",
   "\\b(ignore|override|disable)\\s+(safety|security|policy)\\b"]

/-- `ResponseSafetyFilter._check_patterns`: does any compiled pattern hit
the text? -/
def check_patterns_any (reSearch : String → String → Bool) (text : String)
    (pats : List String) : Bool :=
  pats.any (fun p => reSearch p text)

/-- Maximal word-character runs of a string (helper for
`re.findall(r'\b\w{4,}\b', s)`, whose matches are exactly the maximal
`\w` runs of length at least 4). -/
def wordRunsAux : List Char → List Char → List (List Char)
  | acc, [] => if acc.isEmpty then [] else [acc.reverse]
  | acc, c :: cs =>
      if isWordChar c then wordRunsAux (c :: acc) cs
      else if acc.isEmpty then wordRunsAux [] cs
      else acc.reverse :: wordRunsAux [] cs

/-- `re.findall(r'\b\w{4,}\b', s)`. -/
def findAllWords (s : String) : List String :=
  ((wordRunsAux [] s.data).filter (fun w => 4 ≤ w.length)).map String.mk

/-- `set(re.findall(r'\b\w{4,}\b', s))` — the distinct grounded terms. -/
def wordSet (s : String) : List String :=
  (findAllWords s).dedup

/-- `len(a & b)` for Python sets modelled as deduplicated lists. -/
def listInter (a b : List String) : List String :=
  a.filter (fun w => b.contains w)

/-- `ResponseSafetyFilter._check_hallucination`: empty context is
unconditionally a hallucination; an empty response word-set is never one;
otherwise flag when the overlap fraction is below 0.2. -/
def check_hallucination (response : String) (context_docs : List String) : Bool :=
  if context_docs.isEmpty then true
  else
    let response_words := wordSet (pyLower response)
    let context_words := wordSet (pyLower (String.intercalate " " context_docs))
    if response_words.isEmpty then false
    else
      decide ((((listInter response_words context_words).length : ℚ) /
        (response_words.length : ℚ)) < 1/5)

/-- The `critical` set of `_determine_action`. -/
def criticalViolations : List SafetyViolation :=
  [SafetyViolation.SELF_HARM, SafetyViolation.VIOLENCE,
   SafetyViolation.MALICIOUS_INTENT]

/-- The `moderate` set of `_determine_action`. -/
def moderateViolations : List SafetyViolation :=
  [SafetyViolation.PROFANITY, SafetyViolation.HATE_SPEECH,
   SafetyViolation.POLITICAL_UNSAFE]

/-- `ResponseSafetyFilter._determine_action`. -/
def determine_action (violations : List SafetyViolation) : SafetyCheckResult :=
  if violations.isEmpty then
    ⟨SafetyAction.PASS, [SafetyViolation.NONE], 1⟩
  else if violations.any (fun v => criticalViolations.contains v) then
    ⟨SafetyAction.BLOCK, violations, 0⟩
  else if violations.contains SafetyViolation.HALLUCINATION then
    ⟨SafetyAction.BLOCK, violations, 0⟩
  else if violations.any (fun v => moderateViolations.contains v) then
    ⟨SafetyAction.MODIFY, violations, 7/10⟩
  else
    ⟨SafetyAction.PASS, violations, 9/10⟩

/-- The `violations` list built by `check_response_safety`, in the source's
append order. -/
def collect_violations (reSearch : String → String → Bool) (response : String)
    (context_docs : List String) : List SafetyViolation :=
  (if check_hallucination response context_docs
    then [SafetyViolation.HALLUCINATION] else []) ++
  (if check_patterns_any reSearch response rfMaliciousPatterns
    then [SafetyViolation.MALICIOUS_INTENT] else []) ++
  (if check_patterns_any reSearch response rfProfanityPatterns
    then [SafetyViolation.PROFANITY] else []) ++
  (if check_patterns_any reSearch response rfViolencePatterns
    then [SafetyViolation.VIOLENCE] else []) ++
  (if check_patterns_any reSearch response rfSelfHarmPatterns
    then [SafetyViolation.SELF_HARM] else []) ++
  (if check_patterns_any reSearch response rfHatePatterns
    then [SafetyViolation.HATE_SPEECH] else []) ++
  (if check_patterns_any reSearch response rfPoliticalPatterns
    then [SafetyViolation.POLITICAL_UNSAFE] else [])

/-- `ResponseSafetyFilter.check_response_safety` (the `question` argument
is accepted and unused, as in the source). -/
def check_response_safety (reSearch : String → String → Bool) (response : String)
    (context_docs : List String) (question : String) : SafetyCheckResult :=
  determine_action (collect_violations reSearch response context_docs)

/-- The engine result on text none of the compiled patterns hit (as Python's
`re` yields for the counterexample response "ok!"). -/
def noHits : String → String → Bool := fun _ _ => false

theorem hallucination_mem_collect (reSearch : String → String → Bool)
    (response : String) (context_docs : List String)
    (h : check_hallucination response context_docs = true) :
    SafetyViolation.HALLUCINATION ∈ collect_violations reSearch response context_docs := by
  simp only [collect_violations, h, if_true]
  exact List.mem_append_left _ (List.mem_append_left _ (List.mem_append_left _
    (List.mem_append_left _ (List.mem_append_left _ (List.mem_append_left _
      (List.mem_cons_self _ _))))))

theorem determine_action_hallucination_block (v : List SafetyViolation)
    (hmem : SafetyViolation.HALLUCINATION ∈ v) :
    (determine_action v).action = SafetyAction.BLOCK ∧
    (determine_action v).violations = v := by
  have hne : v.isEmpty = false := by
    cases hv : v.isEmpty
    · rfl
    · exact absurd (List.isEmpty_iff.mp hv ▸ hmem) (List.not_mem_nil _)
  by_cases hc : ∃ x ∈ v, x ∈ criticalViolations
  · constructor <;> simp [determine_action, hne, hc]
  · constructor <;> simp [determine_action, hne, hc, hmem]

/-- C6 (amended) — if the context-document list is empty, or the response
has at least one grounded term (word of length ≥ 4) and shares none of
them with the context documents, then `check_response_safety` flags
HALLUCINATION and the action is BLOCK.  (A response with no grounded term
at all is exempted by `_check_hallucination`'s early return.) -/
theorem c6_zero_overlap_blocks (reSearch : String → String → Bool)
    (response : String) (context_docs : List String) (question : String)
    (h : context_docs = [] ∨
      (wordSet (pyLower response) ≠ [] ∧
       listInter (wordSet (pyLower response))
         (wordSet (pyLower (String.intercalate " " context_docs))) = [])) :
    (check_response_safety reSearch response context_docs question).violations.contains
      SafetyViolation.HALLUCINATION = true ∧
    (check_response_safety reSearch response context_docs question).action =
      SafetyAction.BLOCK := by
  have hhall : check_hallucination response context_docs = true := by
    rcases h with rfl | ⟨hne, hinter⟩
    · rfl
    · cases hce : context_docs.isEmpty
      · have hrw : (wordSet (pyLower response)).isEmpty = false := by
          cases hv : (wordSet (pyLower response)).isEmpty
          · rfl
          · exact absurd (List.isEmpty_iff.mp hv) hne
        simp only [check_hallucination, hce, Bool.false_eq_true, if_false, hrw,
          hinter, decide_eq_true_eq]
        have hlen : 0 < (wordSet (pyLower response)).length :=
          List.length_pos.mpr hne
        rw [List.length_nil]
        push_cast
        rw [zero_div]
        norm_num
      · simp [check_hallucination, hce]
  have hmem := hallucination_mem_collect reSearch response context_docs hhall
  have hda := determine_action_hallucination_block _ hmem
  refine ⟨?_, hda.1⟩
  show (determine_action (collect_violations reSearch response context_docs)).violations.contains
    SafetyViolation.HALLUCINATION = true
  rw [hda.2]
  exact List.elem_eq_true_of_mem hmem

/-- Instantiation of `c6_zero_overlap_blocks` with an empty context list. -/
theorem c6_zero_overlap_blocks_witness :
    (check_response_safety noHits "timesheets are approved in workday" []
      "how do i submit my timesheet").violations.contains
      SafetyViolation.HALLUCINATION = true ∧
    (check_response_safety noHits "timesheets are approved in workday" []
      "how do i submit my timesheet").action = SafetyAction.BLOCK :=
  c6_zero_overlap_blocks noHits "timesheets are approved in workday" []
    "how do i submit my timesheet" (Or.inl rfl)

/-- C6 — counterexample to the claim as stated: the response "ok!" contains
no grounded term (no word of length ≥ 4), so it shares zero grounded terms
with its non-empty context, yet `_check_hallucination` returns early on the
empty response word-set: no HALLUCINATION violation is flagged and (with
no pattern hit, as Python's engine also finds none on "ok!") the action is
PASS, not BLOCK. -/
theorem c6_no_grounded_terms_counterexample :
    wordSet (pyLower "ok!") = [] ∧
    listInter (wordSet (pyLower "ok!"))
      (wordSet (pyLower (String.intercalate " "
        ["store opening hours are nine to nine"]))) = [] ∧
    check_hallucination "ok!" ["store opening hours are nine to nine"] = false ∧
    (check_response_safety noHits "ok!" ["store opening hours are nine to nine"]
      "when do we open").violations.contains SafetyViolation.HALLUCINATION = false ∧
    (check_response_safety noHits "ok!" ["store opening hours are nine to nine"]
      "when do we open").action = SafetyAction.PASS ∧
    SafetyAction.PASS ≠ SafetyAction.BLOCK :=
  ⟨rfl, rfl, rfl, rfl, rfl, by decide⟩
